import Mathlib

/-!
Shallow embedding of the data-fetching snippets of the repository
"Next.js-Data-Fetching-Pages-Router-vs-App-Router".

The repository consists of illustrative Next.js page/component snippets:
* `src/pages/blogs.js`: pages-router SSG (`getStaticProps` + `Blogs`) and
  pages-router SSR (`getServerSideProps` + `News`);
* `src/app/blogs/page.jsx`: app-router SSG (`getBlogs` + `BlogsPage`);
* `src/unnamed/part_000`: pages-router ISR (`getStaticProps` returning
  `revalidate: 10`) and client-side `Profile`;
* `src/unnamed/part_001`: client-side `ProfilePage`, app-router ISR
  (`getPosts` + `PostsPage`), app-router SSR (`getNews` + `NewsPage`).

JavaScript values produced by `res.json()` and by property access are
modelled by `JsValue`; thrown errors / rejected promises by `JsError`
through `Except`; the network by an environment mapping each request to
either a rejection or a response.  Each data function is embedded as a
function from the environment to the list of requests it issues paired
with its result; each component body as a function from its input data
to the JSX tree it returns.
-/

/-- JavaScript runtime values: the possible results of `res.json()`
together with `undefined`, which property access can produce. -/
inductive JsValue where
  | null
  | undefined
  | bool (b : Bool)
  | num (n : Int)
  | str (s : String)
  | arr (elems : List JsValue)
  | obj (fields : List (String × JsValue))
deriving Repr

/-- Errors: a rejected `fetch`, a `res.json()` body that fails to parse,
and a thrown `TypeError` (e.g. calling `.map` on a non-array or reading a
property of `null`). -/
inductive JsError where
  | fetchRejected (msg : String)
  | jsonParseError (msg : String)
  | typeError (msg : String)
deriving Repr, DecidableEq

/-- JavaScript property access `v.k`: throws on `null`/`undefined`,
looks the key up on objects (missing keys give `undefined`), and gives
`undefined` on every other primitive. -/
def JsValue.prop : JsValue → String → Except JsError JsValue
  | .null, k => .error (.typeError ("Cannot read properties of null (reading " ++ k ++ ")"))
  | .undefined, k => .error (.typeError ("Cannot read properties of undefined (reading " ++ k ++ ")"))
  | .obj fields, k => .ok (((fields.find? (fun f => f.1 = k)).map (fun f => f.2)).getD .undefined)
  | .bool _, _ => .ok .undefined
  | .num _, _ => .ok .undefined
  | .str _, _ => .ok .undefined
  | .arr _, _ => .ok .undefined

/-- JavaScript truthiness, as tested by `if (!user)`. -/
def JsValue.truthy : JsValue → Bool
  | .null => false
  | .undefined => false
  | .bool b => b
  | .num n => n != 0
  | .str s => s ≠ ""
  | .arr _ => true
  | .obj _ => true

/-- A value on which property access cannot throw (anything but
`null`/`undefined`). -/
def JsValue.proppable : JsValue → Bool
  | .null => false
  | .undefined => false
  | _ => true

/-- `v.slice(a, b)`: defined on arrays and strings, a `TypeError`
elsewhere. -/
def jsSlice (v : JsValue) (a b : Nat) : Except JsError JsValue :=
  match v with
  | .arr xs => .ok (.arr ((xs.drop a).take (b - a)))
  | .str s => .ok (.str (((s.drop a).take (b - a))))
  | _ => .error (.typeError "slice is not a function")

/-- The JSX trees the components return: literal text, an interpolated
expression child `{v}`, or an element with a tag, an optional `key`
attribute and children. -/
inductive Node where
  | text (s : String)
  | jsx (v : JsValue)
  | elem (tag : String) (key : Option JsValue) (children : List Node)
deriving Repr

/-- `v.map(f)` where `f` may throw: defined on arrays, a `TypeError`
elsewhere. -/
def jsMap (f : JsValue → Except JsError Node) (v : JsValue) : Except JsError (List Node) :=
  match v with
  | .arr xs => xs.mapM f
  | _ => .error (.typeError "map is not a function")

/-- Options that the snippets pass to `fetch` in its second argument. -/
structure FetchOptions where
  cache : Option String := none
  nextRevalidate : Option Nat := none
deriving Repr, DecidableEq

/-- One HTTP request: the URL and the options object, `none` when
`fetch` is called with a single argument. -/
structure Request where
  url : String
  options : Option FetchOptions
deriving Repr, DecidableEq

/-- A response, of which the snippets only ever use `res.json()`; its
body either parses to a JSON value or fails. -/
structure Response where
  jsonResult : Except JsError JsValue
deriving Repr

/-- The network: each request either rejects or yields a response. -/
def FetchEnv : Type := Request → Except JsError Response

def blogsUrl : String := "https://api.example.com/blogs"
def newsUrl : String := "https://api.example.com/news"
def postsUrl : String := "https://api.example.com/posts"
def usersUrl : String := "https://api.example.com/users/1"

/-- `fetch('https://api.example.com/blogs')` (pages and app SSG). -/
def blogsReq : Request := { url := blogsUrl, options := none }

/-- `fetch('https://api.example.com/news')` (pages SSR). -/
def newsReq : Request := { url := newsUrl, options := none }

/-- `fetch('https://api.example.com/posts')` (pages ISR). -/
def postsReq : Request := { url := postsUrl, options := none }

/-- `fetch('https://api.example.com/users/1')` (both CSR components). -/
def usersReq : Request := { url := usersUrl, options := none }

/-- `fetch('https://api.example.com/news', { cache: 'no-store' })` (app SSR). -/
def appNewsReq : Request := { url := newsUrl, options := some { cache := some "no-store" } }

/-- `fetch('https://api.example.com/posts', { next: { revalidate: 10 } })` (app ISR). -/
def appPostsReq : Request :=
  { url := postsUrl, options := some { nextRevalidate := some 10 } }

/-! ## Pages Router: `src/pages/blogs.js`, first snippet (SSG) -/

/-- The result shape of a pages-router data function:
`{ props: {...} }`, optionally with a `revalidate` field (ISR). -/
structure PagesDataResult where
  props : List (String × JsValue)
  revalidate : Option Nat := none
deriving Repr

namespace PagesBlogs

/-- `export async function getStaticProps()` of `src/pages/blogs.js`:
fetches the blogs URL (no options), parses the body, and returns
`{ props: { blogs } }`. -/
def getStaticProps (env : FetchEnv) : List Request × Except JsError PagesDataResult :=
  let req : Request := blogsReq
  ([req],
    match env req with
    | .error e => .error e
    | .ok res =>
      match res.jsonResult with
      | .error e => .error e
      | .ok blogs => .ok { props := [("blogs", blogs)] })

end PagesBlogs

namespace Blogs

/-- The body of `blogs.map((blog) => <div key={blog.id}>{blog.title}</div>)`. -/
def renderItem (blog : JsValue) : Except JsError Node := do
  let i ← blog.prop "id"
  let t ← blog.prop "title"
  pure (.elem "div" (some i) [.jsx t])

/-- The `Blogs({ blogs })` component of `src/pages/blogs.js`:
`<div><h1>Blogs</h1>{blogs.map(...)}</div>`. -/
def render (blogs : JsValue) : Except JsError Node := do
  let items ← jsMap renderItem blogs
  pure (.elem "div" none (.elem "h1" none [.text "Blogs"] :: items))

end Blogs

/-! ## Pages Router: `src/pages/blogs.js`, second snippet (SSR `news.js`) -/

namespace PagesNews

/-- `export async function getServerSideProps()`: fetches the news URL
(no options) and returns `{ props: { news } }`. -/
def getServerSideProps (env : FetchEnv) : List Request × Except JsError PagesDataResult :=
  let req : Request := newsReq
  ([req],
    match env req with
    | .error e => .error e
    | .ok res =>
      match res.jsonResult with
      | .error e => .error e
      | .ok news => .ok { props := [("news", news)] })

end PagesNews

namespace News

/-- The body of `news.map((item) => <div key={item.id}>{item.title}</div>)`. -/
def renderItem (item : JsValue) : Except JsError Node := do
  let i ← item.prop "id"
  let t ← item.prop "title"
  pure (.elem "div" (some i) [.jsx t])

/-- The `News({ news })` component: `<div><h1>News</h1>{news.map(...)}</div>`. -/
def render (news : JsValue) : Except JsError Node := do
  let items ← jsMap renderItem news
  pure (.elem "div" none (.elem "h1" none [.text "News"] :: items))

end News

/-! ## Pages Router ISR: `src/unnamed/part_000`, ISR snippet -/

namespace PagesPostsISR

/-- The ISR `getStaticProps` of `src/unnamed/part_000`: fetches the
posts URL (no options) and returns `{ props: { posts }, revalidate: 10 }`. -/
def getStaticProps (env : FetchEnv) : List Request × Except JsError PagesDataResult :=
  let req : Request := postsReq
  ([req],
    match env req with
    | .error e => .error e
    | .ok res =>
      match res.jsonResult with
      | .error e => .error e
      | .ok posts => .ok { props := [("posts", posts)], revalidate := some 10 })

end PagesPostsISR

/-! ## App Router SSG: `src/app/blogs/page.jsx` -/

namespace AppBlogs

/-- `async function getBlogs()` of `src/app/blogs/page.jsx`: fetches
the blogs URL with no options and returns `res.json()`. -/
def getBlogs (env : FetchEnv) : List Request × Except JsError JsValue :=
  let req : Request := blogsReq
  ([req],
    match env req with
    | .error e => .error e
    | .ok res => res.jsonResult)

/-- The body of `blogs.slice(0, 5).map((post) => <p key={post.id}>{post.title}</p>)`. -/
def renderItem (post : JsValue) : Except JsError Node := do
  let i ← post.prop "id"
  let t ← post.prop "title"
  pure (.elem "p" (some i) [.jsx t])

/-- The markup of `BlogsPage` applied to the fetched value:
`<div><h1>SSG Blogs</h1>{blogs.slice(0, 5).map(...)}</div>`. -/
def renderBody (blogs : JsValue) : Except JsError Node := do
  let sliced ← jsSlice blogs 0 5
  let items ← jsMap renderItem sliced
  pure (.elem "div" none (.elem "h1" none [.text "SSG Blogs"] :: items))

/-- `export default async function BlogsPage()`: awaits `getBlogs()`
and renders its markup. -/
def page (env : FetchEnv) : List Request × Except JsError Node :=
  let r := getBlogs env
  (r.1, r.2.bind renderBody)

end AppBlogs

/-! ## App Router SSR: `src/unnamed/part_001`, `getNews` / `NewsPage` -/

namespace AppNews

/-- `async function getNews()`: fetches the news URL with
`{ cache: 'no-store' }` and returns `res.json()`. -/
def getNews (env : FetchEnv) : List Request × Except JsError JsValue :=
  let req : Request := appNewsReq
  ([req],
    match env req with
    | .error e => .error e
    | .ok res => res.jsonResult)

/-- The body of `news.slice(0, 5).map((n) => <p key={n.id}>{n.body}</p>)`. -/
def renderItem (n : JsValue) : Except JsError Node := do
  let i ← n.prop "id"
  let b ← n.prop "body"
  pure (.elem "p" (some i) [.jsx b])

/-- The markup of `NewsPage` applied to the fetched value:
`<div><h1>SSR News</h1>{news.slice(0, 5).map(...)}</div>`. -/
def renderBody (news : JsValue) : Except JsError Node := do
  let sliced ← jsSlice news 0 5
  let items ← jsMap renderItem sliced
  pure (.elem "div" none (.elem "h1" none [.text "SSR News"] :: items))

/-- `export default async function NewsPage()`: awaits `getNews()` and
renders its markup. -/
def page (env : FetchEnv) : List Request × Except JsError Node :=
  let r := getNews env
  (r.1, r.2.bind renderBody)

end AppNews

/-! ## App Router ISR: `src/unnamed/part_001`, `getPosts` / `PostsPage` -/

namespace AppPosts

/-- `async function getPosts()`: fetches the posts URL with
`{ next: { revalidate: 10 } }` and returns `res.json()`. -/
def getPosts (env : FetchEnv) : List Request × Except JsError JsValue :=
  let req : Request := appPostsReq
  ([req],
    match env req with
    | .error e => .error e
    | .ok res => res.jsonResult)

/-- The body of `posts.map((post) => <p key={post.id}>{post.title}</p>)`. -/
def renderItem (post : JsValue) : Except JsError Node := do
  let i ← post.prop "id"
  let t ← post.prop "title"
  pure (.elem "p" (some i) [.jsx t])

/-- The markup of `PostsPage` applied to the fetched value:
`<div><h1>ISR Posts</h1>{posts.map(...)}</div>`. -/
def renderBody (posts : JsValue) : Except JsError Node := do
  let items ← jsMap renderItem posts
  pure (.elem "div" none (.elem "h1" none [.text "ISR Posts"] :: items))

/-- `export default async function PostsPage()`: awaits `getPosts()`
and renders its markup. -/
def page (env : FetchEnv) : List Request × Except JsError Node :=
  let r := getPosts env
  (r.1, r.2.bind renderBody)

end AppPosts

/-! ## Client-Side Rendering: `Profile` (`src/unnamed/part_000`) and
`ProfilePage` (`src/unnamed/part_001`).  The two snippets are textually
identical components; each is embedded separately.

The component-local React state is `user` (initialised by
`useState(null)`) together with a flag recording whether the
`useEffect` with empty dependency array has already run.  One
`renderCycle` is one render of the component: per React's semantics for
`useEffect(..., [])`, the effect body runs after the first render only;
on later re-renders (in particular the one `setUser` triggers) the
effect is skipped.  The effect body is
`fetch(url).then((res) => res.json()).then(setUser)`: when the fetch
rejects or the body fails to parse no handler catches it and `setUser`
is never called. -/

namespace Profile

structure State where
  user : JsValue
  effectDone : Bool
deriving Repr

/-- `useState(null)` before any effect has run. -/
def initState : State := { user := .null, effectDone := false }

/-- The effect body: one fetch of the user URL, then `res.json()`. -/
def effect (env : FetchEnv) : List Request × Except JsError JsValue :=
  let req : Request := usersReq
  ([req],
    match env req with
    | .error e => .error e
    | .ok res => res.jsonResult)

/-- One render of the component: the first render runs the effect
(calling `setUser` if the promise chain succeeds); re-renders do not. -/
def renderCycle (env : FetchEnv) (s : State) : State × List Request :=
  match s.effectDone with
  | true => (s, [])
  | false =>
    let r := effect env
    ({ user := match r.2 with | .ok v => v | .error _ => s.user,
       effectDone := true }, r.1)

/-- `n` successive renders from the mount, with the requests issued. -/
def run (env : FetchEnv) : Nat → State × List Request
  | 0 => (initState, [])
  | n + 1 =>
    let p := run env n
    let q := renderCycle env p.1
    (q.1, p.2 ++ q.2)

/-- The JSX returned by the component for a given `user` value:
`if (!user) return <p>Loading...</p>;` else the name/email markup. -/
def render (user : JsValue) : Except JsError Node :=
  match user.truthy with
  | false => .ok (.elem "p" none [.text "Loading..."])
  | true => do
    let n ← user.prop "name"
    let m ← user.prop "email"
    pure (.elem "div" none [.elem "h1" none [.jsx n], .elem "p" none [.jsx m]])

end Profile

namespace ProfilePage

structure State where
  user : JsValue
  effectDone : Bool
deriving Repr

/-- `useState(null)` before any effect has run. -/
def initState : State := { user := .null, effectDone := false }

/-- The effect body: one fetch of the user URL, then `res.json()`. -/
def effect (env : FetchEnv) : List Request × Except JsError JsValue :=
  let req : Request := usersReq
  ([req],
    match env req with
    | .error e => .error e
    | .ok res => res.jsonResult)

/-- One render of the component: the first render runs the effect
(calling `setUser` if the promise chain succeeds); re-renders do not. -/
def renderCycle (env : FetchEnv) (s : State) : State × List Request :=
  match s.effectDone with
  | true => (s, [])
  | false =>
    let r := effect env
    ({ user := match r.2 with | .ok v => v | .error _ => s.user,
       effectDone := true }, r.1)

/-- `n` successive renders from the mount, with the requests issued. -/
def run (env : FetchEnv) : Nat → State × List Request
  | 0 => (initState, [])
  | n + 1 =>
    let p := run env n
    let q := renderCycle env p.1
    (q.1, p.2 ++ q.2)

/-- The JSX returned by the component for a given `user` value:
`if (!user) return <p>Loading...</p>;` else the name/email markup. -/
def render (user : JsValue) : Except JsError Node :=
  match user.truthy with
  | false => .ok (.elem "p" none [.text "Loading..."])
  | true => do
    let n ← user.prop "name"
    let m ← user.prop "email"
    pure (.elem "div" none [.elem "h1" none [.jsx n], .elem "p" none [.jsx m]])

end ProfilePage

/-! ## The whole repository as one world

The only state anywhere in the snippets is the component-local
`useState` of the two profile components, so a "world" is just their
two states.  Executing an example is a world transformation returning
the example's output; the server-side examples neither read nor write
the world. -/

structure World where
  profileState : Profile.State
  profilePageState : ProfilePage.State

/-- Executing the `Profile` example: one render cycle of `Profile`. -/
def runProfileEx (env : FetchEnv) (w : World) : World × List Request :=
  let r := Profile.renderCycle env w.profileState
  ({ w with profileState := r.1 }, r.2)

/-- Executing the `ProfilePage` example: one render cycle of `ProfilePage`. -/
def runProfilePageEx (env : FetchEnv) (w : World) : World × List Request :=
  let r := ProfilePage.renderCycle env w.profilePageState
  ({ w with profilePageState := r.1 }, r.2)

/-- Executing the pages-router SSG example. -/
def runPagesBlogsEx (env : FetchEnv) (w : World) :
    World × (List Request × Except JsError PagesDataResult) :=
  (w, PagesBlogs.getStaticProps env)

/-- Executing the pages-router SSR example. -/
def runPagesNewsEx (env : FetchEnv) (w : World) :
    World × (List Request × Except JsError PagesDataResult) :=
  (w, PagesNews.getServerSideProps env)

/-- Executing the pages-router ISR example. -/
def runPagesPostsISREx (env : FetchEnv) (w : World) :
    World × (List Request × Except JsError PagesDataResult) :=
  (w, PagesPostsISR.getStaticProps env)

/-- Executing the app-router SSG example. -/
def runAppBlogsEx (env : FetchEnv) (w : World) :
    World × (List Request × Except JsError Node) :=
  (w, AppBlogs.page env)

/-- Executing the app-router SSR example. -/
def runAppNewsEx (env : FetchEnv) (w : World) :
    World × (List Request × Except JsError Node) :=
  (w, AppNews.page env)

/-- Executing the app-router ISR example. -/
def runAppPostsEx (env : FetchEnv) (w : World) :
    World × (List Request × Except JsError Node) :=
  (w, AppPosts.page env)

/-! ## Helper notions used by the verification -/

/-- Whether a value is a JavaScript array. -/
def JsValue.isArr : JsValue → Bool
  | .arr _ => true
  | _ => false

/-- Whether a value is a JavaScript string. -/
def JsValue.isStr : JsValue → Bool
  | .str _ => true
  | _ => false

/-- Total property access: the value `v.prop k` yields when it does not
throw (and `undefined` when it would throw). -/
def JsValue.propD (v : JsValue) (k : String) : JsValue :=
  match v.prop k with
  | .ok w => w
  | .error _ => .undefined

/-- The item node of `Blogs`: `<div key={blog.id}>{blog.title}</div>`. -/
def blogsItemNode (blog : JsValue) : Node :=
  .elem "div" (some (blog.propD "id")) [.jsx (blog.propD "title")]

/-- The item node of `News`: `<div key={item.id}>{item.title}</div>`. -/
def newsItemNode (item : JsValue) : Node :=
  .elem "div" (some (item.propD "id")) [.jsx (item.propD "title")]

/-- The item node of `BlogsPage`: `<p key={post.id}>{post.title}</p>`. -/
def appBlogsItemNode (post : JsValue) : Node :=
  .elem "p" (some (post.propD "id")) [.jsx (post.propD "title")]

/-- The item node of `NewsPage`: `<p key={n.id}>{n.body}</p>`. -/
def appNewsItemNode (n : JsValue) : Node :=
  .elem "p" (some (n.propD "id")) [.jsx (n.propD "body")]

/-- The item node of `PostsPage`: `<p key={post.id}>{post.title}</p>`. -/
def appPostsItemNode (post : JsValue) : Node :=
  .elem "p" (some (post.propD "id")) [.jsx (post.propD "title")]

/-- The `<p>Loading...</p>` node of the two CSR components. -/
def loadingNode : Node := .elem "p" none [.text "Loading..."]

/-- The structural skeleton of a JSX tree: tags and arities with all
data (text, interpolated values, keys) erased. -/
def Node.shape : Node → Node
  | .text _ => .text ""
  | .jsx _ => .jsx .null
  | .elem tag _ children =>
    .elem tag none (children.attach.map (fun c => Node.shape c.1))
decreasing_by
  simp only [Node.elem.sizeOf_spec]
  have := List.sizeOf_lt_of_mem c.2
  omega

/-- Two values that agree on a list of fields. -/
def fieldsAgree (fs : List String) (a b : JsValue) : Prop :=
  ∀ f ∈ fs, a.prop f = b.prop f

/-! ## Test environments and sample data (used by the witnesses) -/

/-- A network on which every request rejects. -/
def envReject : FetchEnv := fun _ => .error (.fetchRejected "network down")

/-- A response whose body fails to parse as JSON. -/
def badRes : Response := { jsonResult := .error (.jsonParseError "unexpected token") }

/-- A network on which every response has an unparsable body. -/
def envBadJson : FetchEnv := fun _ => .ok badRes

/-- A network answering every request with the same JSON value. -/
def envConst (v : JsValue) : FetchEnv := fun _ => .ok { jsonResult := .ok v }

/-- A sample fetched object. -/
def sampleItem (k : Int) : JsValue :=
  .obj [("id", .num k), ("title", .str "Hello"), ("body", .str "World")]

/-- A sample fetched array of seven objects. -/
def sampleList : List JsValue :=
  [sampleItem 1, sampleItem 2, sampleItem 3, sampleItem 4,
   sampleItem 5, sampleItem 6, sampleItem 7]

/-- A sample fetched user object. -/
def sampleUser : JsValue :=
  .obj [("name", .str "Leanne"), ("email", .str "leanne@example.com")]

/-! ## Basic lemmas about the JavaScript model -/

@[simp] theorem except_ok_bind {ε α β : Type} (a : α) (f : α → Except ε β) :
    (Except.ok a : Except ε α) >>= f = f a := rfl

@[simp] theorem except_error_bind {ε α β : Type} (e : ε) (f : α → Except ε β) :
    (Except.error e : Except ε α) >>= f = .error e := rfl

@[simp] theorem except_pure_eq_ok {ε α : Type} (a : α) :
    (pure a : Except ε α) = .ok a := rfl

theorem prop_eq_ok_of_proppable {v : JsValue} (h : v.proppable = true) (k : String) :
    v.prop k = .ok (v.propD k) := by
  cases v <;> simp_all [JsValue.prop, JsValue.propD, JsValue.proppable]

theorem proppable_of_truthy {v : JsValue} (h : v.truthy = true) :
    v.proppable = true := by
  cases v <;> simp_all [JsValue.truthy, JsValue.proppable]

theorem all_proppable_iff (xs : List JsValue) :
    xs.all JsValue.proppable = true ↔ ∀ v ∈ xs, v.proppable = true := by
  simp [List.all_eq_true]

/-- Mapping an item renderer over a list of proppable values succeeds
and produces exactly the mapped item nodes. -/
theorem mapM_eq_map_of_proppable {f : JsValue → Except JsError Node} {g : JsValue → Node}
    (hfg : ∀ v, v.proppable = true → f v = .ok (g v)) :
    ∀ xs : List JsValue, (∀ v ∈ xs, v.proppable = true) →
      xs.mapM f = .ok (xs.map g) := by
  intro xs
  induction xs with
  | nil => intro _; rfl
  | cons x xs ih =>
    intro h
    have hx := hfg x (h x (by simp))
    have hxs := ih (fun v hv => h v (by simp [hv]))
    rw [List.mapM_cons, hx, hxs]
    rfl

/-! ## Per-component rendering lemmas -/

theorem blogs_renderItem_eq {b : JsValue} (h : b.proppable = true) :
    Blogs.renderItem b = .ok (blogsItemNode b) := by
  cases b
  case null => simp [JsValue.proppable] at h
  case undefined => simp [JsValue.proppable] at h
  all_goals rfl

theorem news_renderItem_eq {b : JsValue} (h : b.proppable = true) :
    News.renderItem b = .ok (newsItemNode b) := by
  cases b
  case null => simp [JsValue.proppable] at h
  case undefined => simp [JsValue.proppable] at h
  all_goals rfl

theorem appBlogs_renderItem_eq {b : JsValue} (h : b.proppable = true) :
    AppBlogs.renderItem b = .ok (appBlogsItemNode b) := by
  cases b
  case null => simp [JsValue.proppable] at h
  case undefined => simp [JsValue.proppable] at h
  all_goals rfl

theorem appNews_renderItem_eq {b : JsValue} (h : b.proppable = true) :
    AppNews.renderItem b = .ok (appNewsItemNode b) := by
  cases b
  case null => simp [JsValue.proppable] at h
  case undefined => simp [JsValue.proppable] at h
  all_goals rfl

theorem appPosts_renderItem_eq {b : JsValue} (h : b.proppable = true) :
    AppPosts.renderItem b = .ok (appPostsItemNode b) := by
  cases b
  case null => simp [JsValue.proppable] at h
  case undefined => simp [JsValue.proppable] at h
  all_goals rfl

theorem blogs_render_arr {xs : List JsValue} (h : ∀ v ∈ xs, v.proppable = true) :
    Blogs.render (.arr xs) =
      .ok (.elem "div" none
        (.elem "h1" none [.text "Blogs"] :: xs.map blogsItemNode)) := by
  have hm := mapM_eq_map_of_proppable (fun v hv => blogs_renderItem_eq hv) xs h
  simp only [Blogs.render, jsMap, hm, except_ok_bind, except_pure_eq_ok]

theorem news_render_arr {xs : List JsValue} (h : ∀ v ∈ xs, v.proppable = true) :
    News.render (.arr xs) =
      .ok (.elem "div" none
        (.elem "h1" none [.text "News"] :: xs.map newsItemNode)) := by
  have hm := mapM_eq_map_of_proppable (fun v hv => news_renderItem_eq hv) xs h
  simp only [News.render, jsMap, hm, except_ok_bind, except_pure_eq_ok]

theorem appBlogs_renderBody_arr {xs : List JsValue} (h : ∀ v ∈ xs, v.proppable = true) :
    AppBlogs.renderBody (.arr xs) =
      .ok (.elem "div" none
        (.elem "h1" none [.text "SSG Blogs"] :: (xs.take 5).map appBlogsItemNode)) := by
  have h5 : ∀ v ∈ xs.take 5, v.proppable = true :=
    fun v hv => h v (List.mem_of_mem_take hv)
  have hm := mapM_eq_map_of_proppable (fun v hv => appBlogs_renderItem_eq hv) _ h5
  simp only [AppBlogs.renderBody, jsSlice, jsMap, List.drop_zero, Nat.sub_zero,
             hm, except_ok_bind, except_pure_eq_ok]

theorem appNews_renderBody_arr {xs : List JsValue} (h : ∀ v ∈ xs, v.proppable = true) :
    AppNews.renderBody (.arr xs) =
      .ok (.elem "div" none
        (.elem "h1" none [.text "SSR News"] :: (xs.take 5).map appNewsItemNode)) := by
  have h5 : ∀ v ∈ xs.take 5, v.proppable = true :=
    fun v hv => h v (List.mem_of_mem_take hv)
  have hm := mapM_eq_map_of_proppable (fun v hv => appNews_renderItem_eq hv) _ h5
  simp only [AppNews.renderBody, jsSlice, jsMap, List.drop_zero, Nat.sub_zero,
             hm, except_ok_bind, except_pure_eq_ok]

theorem appPosts_renderBody_arr {xs : List JsValue} (h : ∀ v ∈ xs, v.proppable = true) :
    AppPosts.renderBody (.arr xs) =
      .ok (.elem "div" none
        (.elem "h1" none [.text "ISR Posts"] :: xs.map appPostsItemNode)) := by
  have hm := mapM_eq_map_of_proppable (fun v hv => appPosts_renderItem_eq hv) xs h
  simp only [AppPosts.renderBody, jsMap, hm, except_ok_bind, except_pure_eq_ok]

/-! ## Lemmas about the CSR components -/

theorem profile_render_of_truthy {u : JsValue} (h : u.truthy = true) :
    Profile.render u = .ok (.elem "div" none
      [.elem "h1" none [.jsx (u.propD "name")], .elem "p" none [.jsx (u.propD "email")]]) := by
  simp [Profile.render, h, prop_eq_ok_of_proppable (proppable_of_truthy h)]

theorem profile_render_of_falsy {u : JsValue} (h : u.truthy = false) :
    Profile.render u = .ok loadingNode := by
  simp [Profile.render, h, loadingNode]

theorem profile_render_loading_iff (u : JsValue) :
    Profile.render u = .ok loadingNode ↔ u.truthy = false := by
  constructor
  · intro hE
    cases ht : u.truthy
    · rfl
    · rw [profile_render_of_truthy ht] at hE
      simp [loadingNode] at hE
  · exact profile_render_of_falsy

theorem profilePage_render_of_truthy {u : JsValue} (h : u.truthy = true) :
    ProfilePage.render u = .ok (.elem "div" none
      [.elem "h1" none [.jsx (u.propD "name")], .elem "p" none [.jsx (u.propD "email")]]) := by
  simp [ProfilePage.render, h, prop_eq_ok_of_proppable (proppable_of_truthy h)]

theorem profilePage_render_of_falsy {u : JsValue} (h : u.truthy = false) :
    ProfilePage.render u = .ok loadingNode := by
  simp [ProfilePage.render, h, loadingNode]

theorem profilePage_render_loading_iff (u : JsValue) :
    ProfilePage.render u = .ok loadingNode ↔ u.truthy = false := by
  constructor
  · intro hE
    cases ht : u.truthy
    · rfl
    · rw [profilePage_render_of_truthy ht] at hE
      simp [loadingNode] at hE
  · exact profilePage_render_of_falsy

theorem profile_renderCycle_done (env : FetchEnv) (s : Profile.State)
    (h : s.effectDone = true) : Profile.renderCycle env s = (s, []) := by
  unfold Profile.renderCycle
  rw [h]

theorem profilePage_renderCycle_done (env : FetchEnv) (s : ProfilePage.State)
    (h : s.effectDone = true) : ProfilePage.renderCycle env s = (s, []) := by
  unfold ProfilePage.renderCycle
  rw [h]

theorem profile_run_succ_spec (env : FetchEnv) :
    ∀ n, (Profile.run env (n + 1)).1.effectDone = true ∧
      (Profile.run env (n + 1)).2 = [usersReq] := by
  intro n
  induction n with
  | zero => exact ⟨rfl, rfl⟩
  | succ m ih =>
    have hstep : Profile.run env (m + 1 + 1) =
        ((Profile.renderCycle env (Profile.run env (m + 1)).1).1,
         (Profile.run env (m + 1)).2 ++
           (Profile.renderCycle env (Profile.run env (m + 1)).1).2) := rfl
    rw [hstep, profile_renderCycle_done env _ ih.1]
    exact ⟨ih.1, by simp [ih.2]⟩

theorem profilePage_run_succ_spec (env : FetchEnv) :
    ∀ n, (ProfilePage.run env (n + 1)).1.effectDone = true ∧
      (ProfilePage.run env (n + 1)).2 = [usersReq] := by
  intro n
  induction n with
  | zero => exact ⟨rfl, rfl⟩
  | succ m ih =>
    have hstep : ProfilePage.run env (m + 1 + 1) =
        ((ProfilePage.renderCycle env (ProfilePage.run env (m + 1)).1).1,
         (ProfilePage.run env (m + 1)).2 ++
           (ProfilePage.renderCycle env (ProfilePage.run env (m + 1)).1).2) := rfl
    rw [hstep, profilePage_renderCycle_done env _ ih.1]
    exact ⟨ih.1, by simp [ih.2]⟩

/-! ## Markup-shape lemmas (branch-freeness of the server components) -/

theorem node_shape_elem (tag : String) (key : Option JsValue) (children : List Node) :
    (Node.elem tag key children).shape = .elem tag none (children.map Node.shape) := by
  simp [Node.shape]

theorem map_shape_const {g : JsValue → Node} {c : Node} (hc : ∀ v, (g v).shape = c) :
    ∀ xs : List JsValue, (xs.map g).map Node.shape = List.replicate xs.length c := by
  intro xs
  induction xs with
  | nil => rfl
  | cons x xs ih => simp [hc, ih, List.replicate_succ]

/-- The skeleton every list component renders: a `div` holding an `h1`
and one item element per rendered datum.  It depends only on the item
tag and the number of items. -/
def listMarkupShape (itemTag : String) (len : Nat) : Node :=
  .elem "div" none (.elem "h1" none [.text ""] ::
    List.replicate len (.elem itemTag none [.jsx .null]))

theorem blogsItemNode_shape (v : JsValue) :
    (blogsItemNode v).shape = .elem "div" none [.jsx .null] := by
  simp [blogsItemNode, Node.shape]

theorem newsItemNode_shape (v : JsValue) :
    (newsItemNode v).shape = .elem "div" none [.jsx .null] := by
  simp [newsItemNode, Node.shape]

theorem appBlogsItemNode_shape (v : JsValue) :
    (appBlogsItemNode v).shape = .elem "p" none [.jsx .null] := by
  simp [appBlogsItemNode, Node.shape]

theorem appNewsItemNode_shape (v : JsValue) :
    (appNewsItemNode v).shape = .elem "p" none [.jsx .null] := by
  simp [appNewsItemNode, Node.shape]

theorem appPostsItemNode_shape (v : JsValue) :
    (appPostsItemNode v).shape = .elem "p" none [.jsx .null] := by
  simp [appPostsItemNode, Node.shape]

theorem markup_shape_eq (title : String) (itemTag : String) {g : JsValue → Node}
    (hc : ∀ v, (g v).shape = .elem itemTag none [.jsx .null]) (xs : List JsValue) :
    (Node.elem "div" none (.elem "h1" none [.text title] :: xs.map g)).shape =
      listMarkupShape itemTag xs.length := by
  rw [node_shape_elem, listMarkupShape]
  simp [Node.shape, map_shape_const hc]

/-! ## Claims -/

/-- C2: every page or component performs exactly one fetch call: each
server-side data function (`getStaticProps`, `getServerSideProps`,
`getBlogs`, `getNews`, `getPosts`) issues exactly one HTTP request per
invocation (on every network environment, hence on every execution
path), each app-router page issues exactly one request, and each
client component issues exactly one request per mount. -/
theorem c2_single_fetch_per_invocation (env : FetchEnv) :
    (PagesBlogs.getStaticProps env).1.length = 1 ∧
    (PagesNews.getServerSideProps env).1.length = 1 ∧
    (PagesPostsISR.getStaticProps env).1.length = 1 ∧
    (AppBlogs.getBlogs env).1.length = 1 ∧
    (AppNews.getNews env).1.length = 1 ∧
    (AppPosts.getPosts env).1.length = 1 ∧
    (AppBlogs.page env).1.length = 1 ∧
    (AppNews.page env).1.length = 1 ∧
    (AppPosts.page env).1.length = 1 ∧
    (Profile.renderCycle env Profile.initState).2.length = 1 ∧
    (ProfilePage.renderCycle env ProfilePage.initState).2.length = 1 :=
  ⟨rfl, rfl, rfl, rfl, rfl, rfl, rfl, rfl, rfl, rfl, rfl⟩

/-- C4: because the `useEffect` of `Profile` and `ProfilePage` has an
empty dependency array, any sequence of `n ≥ 1` renders starting at the
mount (the first render plus any re-renders, including the one
triggered by `setUser`) issues in total exactly the single fetch of the
user URL, on every network environment. -/
theorem c4_fetch_once_per_mount (env : FetchEnv) (n : Nat) (h : 1 ≤ n) :
    (Profile.run env n).2 = [usersReq] ∧
    (ProfilePage.run env n).2 = [usersReq] := by
  obtain ⟨m, rfl⟩ : ∃ m, n = m + 1 := ⟨n - 1, by omega⟩
  exact ⟨(profile_run_succ_spec env m).2, (profilePage_run_succ_spec env m).2⟩

theorem c4_witness :
    1 ≤ 5 ∧ (Profile.run (envConst sampleUser) 5).2 = [usersReq] ∧
      (ProfilePage.run (envConst sampleUser) 5).2 = [usersReq] :=
  ⟨by decide,
   (c4_fetch_once_per_mount (envConst sampleUser) 5 (by decide)).1,
   (c4_fetch_once_per_mount (envConst sampleUser) 5 (by decide)).2⟩

/-- C6: the pages-router ISR `getStaticProps` returns `revalidate = 10`
alongside its props whenever it returns at all, the app-router ISR
`getPosts` passes `next: { revalidate: 10 }` on its single request,
while the plain SSG snippets return no `revalidate` field
(pages router) and pass no fetch options at all (app router). -/
theorem c6_isr_revalidate_ten (env : FetchEnv) :
    (∀ r, (PagesPostsISR.getStaticProps env).2 = .ok r → r.revalidate = some 10) ∧
    (AppPosts.getPosts env).1 = [appPostsReq] ∧
    appPostsReq.options = some { cache := none, nextRevalidate := some 10 } ∧
    (∀ r, (PagesBlogs.getStaticProps env).2 = .ok r → r.revalidate = none) ∧
    (AppBlogs.getBlogs env).1 = [blogsReq] ∧
    blogsReq.options = none := by
  refine ⟨?_, rfl, rfl, ?_, rfl, rfl⟩
  · intro r hr
    simp only [PagesPostsISR.getStaticProps] at hr
    cases he : env postsReq with
    | error e => rw [he] at hr; cases hr
    | ok res =>
      rw [he] at hr
      dsimp only at hr
      cases hj : res.jsonResult with
      | error e => rw [hj] at hr; cases hr
      | ok posts =>
        rw [hj] at hr
        injection hr with h
        rw [← h]
  · intro r hr
    simp only [PagesBlogs.getStaticProps] at hr
    cases he : env blogsReq with
    | error e => rw [he] at hr; cases hr
    | ok res =>
      rw [he] at hr
      dsimp only at hr
      cases hj : res.jsonResult with
      | error e => rw [hj] at hr; cases hr
      | ok blogs =>
        rw [hj] at hr
        injection hr with h
        rw [← h]

theorem c6_witness :
    (PagesPostsISR.getStaticProps (envConst (.arr []))).2 =
        .ok { props := [("posts", .arr [])], revalidate := some 10 } ∧
    ({ props := [("posts", .arr [])], revalidate := some 10 } : PagesDataResult).revalidate
        = some 10 :=
  ⟨rfl, (c6_isr_revalidate_ten (envConst (.arr []))).1 _ rfl⟩

/-- C7: the examples are mutually independent.  The only state in the
repository is the component-local `useState` of the two profile
components; executing either profile component leaves the other
component's state unchanged and its own new state and requests depend
only on its own state; every server-rendered example leaves the world
unchanged and its output does not depend on the world at all. -/
theorem c7_examples_independent (env : FetchEnv) (w w' : World) :
    ((runProfileEx env w).1.profilePageState = w.profilePageState) ∧
    ((runProfileEx env w).1.profileState = (Profile.renderCycle env w.profileState).1) ∧
    ((runProfileEx env w).2 = (Profile.renderCycle env w.profileState).2) ∧
    ((runProfilePageEx env w).1.profileState = w.profileState) ∧
    ((runProfilePageEx env w).1.profilePageState =
      (ProfilePage.renderCycle env w.profilePageState).1) ∧
    ((runProfilePageEx env w).2 = (ProfilePage.renderCycle env w.profilePageState).2) ∧
    ((runPagesBlogsEx env w).1 = w ∧ (runPagesBlogsEx env w).2 = (runPagesBlogsEx env w').2) ∧
    ((runPagesNewsEx env w).1 = w ∧ (runPagesNewsEx env w).2 = (runPagesNewsEx env w').2) ∧
    ((runPagesPostsISREx env w).1 = w ∧
      (runPagesPostsISREx env w).2 = (runPagesPostsISREx env w').2) ∧
    ((runAppBlogsEx env w).1 = w ∧ (runAppBlogsEx env w).2 = (runAppBlogsEx env w').2) ∧
    ((runAppNewsEx env w).1 = w ∧ (runAppNewsEx env w).2 = (runAppNewsEx env w').2) ∧
    ((runAppPostsEx env w).1 = w ∧ (runAppPostsEx env w).2 = (runAppPostsEx env w').2) :=
  ⟨rfl, rfl, rfl, rfl, rfl, rfl, ⟨rfl, rfl⟩, ⟨rfl, rfl⟩, ⟨rfl, rfl⟩,
   ⟨rfl, rfl⟩, ⟨rfl, rfl⟩, ⟨rfl, rfl⟩⟩

@[simp] theorem except_bind_ok_fn {ε α β : Type} (a : α) (f : α → Except ε β) :
    Except.bind (Except.ok a) f = f a := rfl

@[simp] theorem except_bind_error_fn {ε α β : Type} (e : ε) (f : α → Except ε β) :
    Except.bind (Except.error e) f = .error e := rfl

/-- A second sample object: it agrees with `sampleItem 1` on the fields
`id` and `title` but is a different object. -/
def sampleItemB : JsValue :=
  .obj [("title", .str "Hello"), ("id", .num 1), ("extra", .bool true)]

/-- C1: every snippet renders the fetched fields directly, without
transformation, and reads only the fields `id`, `title`, `body`,
`name`, `email`: the item markup of `Blogs`, `News`, `BlogsPage`,
`PostsPage` is built from exactly `id` and `title`, that of `NewsPage`
from exactly `id` and `body`, and the profile markup from exactly
`name` and `email` (together with the loading check on `user`):
two values agreeing on those fields render identically. -/
theorem c1_fields_rendered_directly :
    (∀ b : JsValue, b.proppable = true →
      Blogs.renderItem b = .ok (.elem "div" (some (b.propD "id")) [.jsx (b.propD "title")])) ∧
    (∀ b : JsValue, b.proppable = true →
      News.renderItem b = .ok (.elem "div" (some (b.propD "id")) [.jsx (b.propD "title")])) ∧
    (∀ b : JsValue, b.proppable = true →
      AppBlogs.renderItem b = .ok (.elem "p" (some (b.propD "id")) [.jsx (b.propD "title")])) ∧
    (∀ b : JsValue, b.proppable = true →
      AppNews.renderItem b = .ok (.elem "p" (some (b.propD "id")) [.jsx (b.propD "body")])) ∧
    (∀ b : JsValue, b.proppable = true →
      AppPosts.renderItem b = .ok (.elem "p" (some (b.propD "id")) [.jsx (b.propD "title")])) ∧
    (∀ u : JsValue, u.truthy = true →
      Profile.render u = .ok (.elem "div" none
        [.elem "h1" none [.jsx (u.propD "name")], .elem "p" none [.jsx (u.propD "email")]])) ∧
    (∀ u : JsValue, u.truthy = true →
      ProfilePage.render u = .ok (.elem "div" none
        [.elem "h1" none [.jsx (u.propD "name")], .elem "p" none [.jsx (u.propD "email")]])) ∧
    (∀ b b' : JsValue, fieldsAgree ["id", "title"] b b' →
      Blogs.renderItem b = Blogs.renderItem b') ∧
    (∀ b b' : JsValue, fieldsAgree ["id", "title"] b b' →
      News.renderItem b = News.renderItem b') ∧
    (∀ b b' : JsValue, fieldsAgree ["id", "title"] b b' →
      AppBlogs.renderItem b = AppBlogs.renderItem b') ∧
    (∀ b b' : JsValue, fieldsAgree ["id", "body"] b b' →
      AppNews.renderItem b = AppNews.renderItem b') ∧
    (∀ b b' : JsValue, fieldsAgree ["id", "title"] b b' →
      AppPosts.renderItem b = AppPosts.renderItem b') ∧
    (∀ u u' : JsValue, u.truthy = u'.truthy → fieldsAgree ["name", "email"] u u' →
      Profile.render u = Profile.render u') ∧
    (∀ u u' : JsValue, u.truthy = u'.truthy → fieldsAgree ["name", "email"] u u' →
      ProfilePage.render u = ProfilePage.render u') := by
  refine ⟨fun b h => blogs_renderItem_eq h, fun b h => news_renderItem_eq h,
    fun b h => appBlogs_renderItem_eq h, fun b h => appNews_renderItem_eq h,
    fun b h => appPosts_renderItem_eq h,
    fun u h => profile_render_of_truthy h, fun u h => profilePage_render_of_truthy h,
    ?_, ?_, ?_, ?_, ?_, ?_, ?_⟩
  · intro b b' hagree
    have hid := hagree "id" (by simp)
    have ht := hagree "title" (by simp)
    simp only [Blogs.renderItem, hid, ht]
  · intro b b' hagree
    have hid := hagree "id" (by simp)
    have ht := hagree "title" (by simp)
    simp only [News.renderItem, hid, ht]
  · intro b b' hagree
    have hid := hagree "id" (by simp)
    have ht := hagree "title" (by simp)
    simp only [AppBlogs.renderItem, hid, ht]
  · intro b b' hagree
    have hid := hagree "id" (by simp)
    have hb := hagree "body" (by simp)
    simp only [AppNews.renderItem, hid, hb]
  · intro b b' hagree
    have hid := hagree "id" (by simp)
    have ht := hagree "title" (by simp)
    simp only [AppPosts.renderItem, hid, ht]
  · intro u u' htr hagree
    have hn := hagree "name" (by simp)
    have hm := hagree "email" (by simp)
    simp only [Profile.render, htr, hn, hm]
  · intro u u' htr hagree
    have hn := hagree "name" (by simp)
    have hm := hagree "email" (by simp)
    simp only [ProfilePage.render, htr, hn, hm]

theorem c1_witness :
    (sampleItem 1).proppable = true ∧
    Blogs.renderItem (sampleItem 1) =
      .ok (.elem "div" (some ((sampleItem 1).propD "id"))
        [.jsx ((sampleItem 1).propD "title")]) ∧
    sampleUser.truthy = true ∧
    Profile.render sampleUser = .ok (.elem "div" none
      [.elem "h1" none [.jsx (sampleUser.propD "name")],
       .elem "p" none [.jsx (sampleUser.propD "email")]]) ∧
    fieldsAgree ["id", "title"] (sampleItem 1) sampleItemB ∧
    Blogs.renderItem (sampleItem 1) = Blogs.renderItem sampleItemB := by
  have h := c1_fields_rendered_directly
  have hagree : fieldsAgree ["id", "title"] (sampleItem 1) sampleItemB := by
    intro f hf
    simp only [List.mem_cons, List.not_mem_nil, or_false] at hf
    rcases hf with rfl | rfl <;> rfl
  exact ⟨rfl, h.1 (sampleItem 1) rfl, rfl, h.2.2.2.2.2.1 sampleUser rfl, hagree,
    h.2.2.2.2.2.2.2.1 (sampleItem 1) sampleItemB hagree⟩

/-- C3: no snippet handles fetch errors.  A rejected fetch, an
unparsable response body, or a value of the wrong shape (a non-array
where `.map` or `.slice` is applied) makes every data function and
component propagate the error unchanged to its caller — no fallback
value or fallback markup is ever produced, and in the client components
`setUser` is never called, leaving `user` at `null`. -/
theorem c3_errors_propagate_unhandled (env : FetchEnv) (e : JsError) (res : Response) :
    (env blogsReq = .error e → (PagesBlogs.getStaticProps env).2 = .error e) ∧
    (env newsReq = .error e → (PagesNews.getServerSideProps env).2 = .error e) ∧
    (env postsReq = .error e → (PagesPostsISR.getStaticProps env).2 = .error e) ∧
    (env blogsReq = .error e →
      (AppBlogs.getBlogs env).2 = .error e ∧ (AppBlogs.page env).2 = .error e) ∧
    (env appNewsReq = .error e →
      (AppNews.getNews env).2 = .error e ∧ (AppNews.page env).2 = .error e) ∧
    (env appPostsReq = .error e →
      (AppPosts.getPosts env).2 = .error e ∧ (AppPosts.page env).2 = .error e) ∧
    (env blogsReq = .ok res → res.jsonResult = .error e →
      (PagesBlogs.getStaticProps env).2 = .error e) ∧
    (env newsReq = .ok res → res.jsonResult = .error e →
      (PagesNews.getServerSideProps env).2 = .error e) ∧
    (env postsReq = .ok res → res.jsonResult = .error e →
      (PagesPostsISR.getStaticProps env).2 = .error e) ∧
    (env blogsReq = .ok res → res.jsonResult = .error e →
      (AppBlogs.page env).2 = .error e) ∧
    (env appNewsReq = .ok res → res.jsonResult = .error e →
      (AppNews.page env).2 = .error e) ∧
    (env appPostsReq = .ok res → res.jsonResult = .error e →
      (AppPosts.page env).2 = .error e) ∧
    (env usersReq = .error e →
      (Profile.effect env).2 = .error e ∧
      (Profile.renderCycle env Profile.initState).1.user = .null) ∧
    (env usersReq = .error e →
      (ProfilePage.effect env).2 = .error e ∧
      (ProfilePage.renderCycle env ProfilePage.initState).1.user = .null) ∧
    (∀ v : JsValue, v.isArr = false →
      Blogs.render v = .error (.typeError "map is not a function")) ∧
    (∀ v : JsValue, v.isArr = false →
      News.render v = .error (.typeError "map is not a function")) ∧
    (∀ v : JsValue, v.isArr = false →
      AppPosts.renderBody v = .error (.typeError "map is not a function")) ∧
    (∀ v : JsValue, v.isArr = false → v.isStr = false →
      AppBlogs.renderBody v = .error (.typeError "slice is not a function")) ∧
    (∀ v : JsValue, v.isArr = false → v.isStr = false →
      AppNews.renderBody v = .error (.typeError "slice is not a function")) ∧
    (∀ s : String,
      AppBlogs.renderBody (.str s) = .error (.typeError "map is not a function")) ∧
    (∀ s : String,
      AppNews.renderBody (.str s) = .error (.typeError "map is not a function")) := by
  refine ⟨?_, ?_, ?_, ?_, ?_, ?_, ?_, ?_, ?_, ?_, ?_, ?_, ?_, ?_,
    ?_, ?_, ?_, ?_, ?_, fun s => rfl, fun s => rfl⟩
  · intro h; simp [PagesBlogs.getStaticProps, h]
  · intro h; simp [PagesNews.getServerSideProps, h]
  · intro h; simp [PagesPostsISR.getStaticProps, h]
  · intro h
    exact ⟨by simp [AppBlogs.getBlogs, h], by simp [AppBlogs.page, AppBlogs.getBlogs, h]⟩
  · intro h
    exact ⟨by simp [AppNews.getNews, h], by simp [AppNews.page, AppNews.getNews, h]⟩
  · intro h
    exact ⟨by simp [AppPosts.getPosts, h], by simp [AppPosts.page, AppPosts.getPosts, h]⟩
  · intro h hj; simp [PagesBlogs.getStaticProps, h, hj]
  · intro h hj; simp [PagesNews.getServerSideProps, h, hj]
  · intro h hj; simp [PagesPostsISR.getStaticProps, h, hj]
  · intro h hj; simp [AppBlogs.page, AppBlogs.getBlogs, h, hj]
  · intro h hj; simp [AppNews.page, AppNews.getNews, h, hj]
  · intro h hj; simp [AppPosts.page, AppPosts.getPosts, h, hj]
  · intro h
    exact ⟨by simp [Profile.effect, h],
      by simp [Profile.renderCycle, Profile.effect, Profile.initState, h]⟩
  · intro h
    exact ⟨by simp [ProfilePage.effect, h],
      by simp [ProfilePage.renderCycle, ProfilePage.effect, ProfilePage.initState, h]⟩
  · intro v hv
    cases v <;> simp_all [Blogs.render, jsMap, JsValue.isArr]
  · intro v hv
    cases v <;> simp_all [News.render, jsMap, JsValue.isArr]
  · intro v hv
    cases v <;> simp_all [AppPosts.renderBody, jsMap, JsValue.isArr]
  · intro v hv hs
    cases v <;> simp_all [AppBlogs.renderBody, jsSlice, JsValue.isArr, JsValue.isStr]
  · intro v hv hs
    cases v <;> simp_all [AppNews.renderBody, jsSlice, JsValue.isArr, JsValue.isStr]

theorem c3_witness :
    envReject blogsReq = .error (.fetchRejected "network down") ∧
    (PagesBlogs.getStaticProps envReject).2 = .error (.fetchRejected "network down") ∧
    envBadJson blogsReq = .ok badRes ∧
    badRes.jsonResult = .error (.jsonParseError "unexpected token") ∧
    (PagesBlogs.getStaticProps envBadJson).2 = .error (.jsonParseError "unexpected token") ∧
    (JsValue.num 3).isArr = false ∧
    Blogs.render (.num 3) = .error (.typeError "map is not a function") ∧
    (Profile.renderCycle envReject Profile.initState).1.user = .null := by
  have hR := c3_errors_propagate_unhandled envReject (.fetchRejected "network down") badRes
  have hJ := c3_errors_propagate_unhandled envBadJson (.jsonParseError "unexpected token") badRes
  exact ⟨rfl, hR.1 rfl, rfl, rfl, hJ.2.2.2.2.2.2.1 rfl rfl, rfl,
    hR.2.2.2.2.2.2.2.2.2.2.2.2.2.2.1 (.num 3) rfl,
    (hR.2.2.2.2.2.2.2.2.2.2.2.2.1 rfl).2⟩

/-- C5 as stated is false: the claim says `Profile` and `ProfilePage`
"branch solely on whether user is null", but the source tests
`if (!user)`, i.e. JavaScript falsiness.  At the non-null user value
`0` the component still takes the loading branch. -/
theorem c5_counterexample :
    Profile.render (.num 0) = .ok loadingNode ∧
    ProfilePage.render (.num 0) = .ok loadingNode ∧
    JsValue.num 0 ≠ JsValue.null :=
  ⟨rfl, rfl, fun h => JsValue.noConfusion h⟩

/-- C5 amended: the only conditional logic in any component is the
loading-state check of the client components, which branches solely on
the truthiness of `user` (the loading branch is taken exactly for falsy
users — `null`, but also `0`, `""`, `false`, `undefined`); every
server-rendered component is branch-free: on any fetched array it
renders markup whose structure (`Node.shape`) is the same fixed
skeleton, depending only on the number of rendered items. -/
theorem c5_amended_loading_check_only :
    (∀ u : JsValue, Profile.render u = .ok loadingNode ↔ u.truthy = false) ∧
    (∀ u : JsValue, ProfilePage.render u = .ok loadingNode ↔ u.truthy = false) ∧
    (∀ xs : List JsValue, xs.all JsValue.proppable = true →
      ∃ m, Blogs.render (.arr xs) = .ok m ∧
        m.shape = listMarkupShape "div" xs.length) ∧
    (∀ xs : List JsValue, xs.all JsValue.proppable = true →
      ∃ m, News.render (.arr xs) = .ok m ∧
        m.shape = listMarkupShape "div" xs.length) ∧
    (∀ xs : List JsValue, xs.all JsValue.proppable = true →
      ∃ m, AppBlogs.renderBody (.arr xs) = .ok m ∧
        m.shape = listMarkupShape "p" (xs.take 5).length) ∧
    (∀ xs : List JsValue, xs.all JsValue.proppable = true →
      ∃ m, AppNews.renderBody (.arr xs) = .ok m ∧
        m.shape = listMarkupShape "p" (xs.take 5).length) ∧
    (∀ xs : List JsValue, xs.all JsValue.proppable = true →
      ∃ m, AppPosts.renderBody (.arr xs) = .ok m ∧
        m.shape = listMarkupShape "p" xs.length) := by
  refine ⟨profile_render_loading_iff, profilePage_render_loading_iff, ?_, ?_, ?_, ?_, ?_⟩
  · intro xs h
    exact ⟨_, blogs_render_arr ((all_proppable_iff xs).1 h),
      markup_shape_eq "Blogs" "div" blogsItemNode_shape xs⟩
  · intro xs h
    exact ⟨_, news_render_arr ((all_proppable_iff xs).1 h),
      markup_shape_eq "News" "div" newsItemNode_shape xs⟩
  · intro xs h
    exact ⟨_, appBlogs_renderBody_arr ((all_proppable_iff xs).1 h),
      markup_shape_eq "SSG Blogs" "p" appBlogsItemNode_shape (xs.take 5)⟩
  · intro xs h
    exact ⟨_, appNews_renderBody_arr ((all_proppable_iff xs).1 h),
      markup_shape_eq "SSR News" "p" appNewsItemNode_shape (xs.take 5)⟩
  · intro xs h
    exact ⟨_, appPosts_renderBody_arr ((all_proppable_iff xs).1 h),
      markup_shape_eq "ISR Posts" "p" appPostsItemNode_shape xs⟩

theorem c5_amended_witness :
    Profile.render JsValue.null = .ok loadingNode ∧
    sampleList.all JsValue.proppable = true ∧
    (∃ m, Blogs.render (.arr sampleList) = .ok m ∧
      m.shape = listMarkupShape "div" sampleList.length) :=
  ⟨(c5_amended_loading_check_only.1 JsValue.null).2 rfl, rfl,
   c5_amended_loading_check_only.2.2.1 sampleList rfl⟩

/-- C9 as stated is false: the claim says the name-and-email markup is
rendered "if and only if user is non-null", but the check is
`if (!user)`: at the non-null user value `""` both components still
render the loading paragraph, not the name-and-email markup. -/
theorem c9_counterexample :
    JsValue.str "" ≠ JsValue.null ∧
    ProfilePage.render (.str "") = .ok loadingNode ∧
    Profile.render (.str "") = .ok loadingNode ∧
    loadingNode ≠ .elem "div" none
      [.elem "h1" none [.jsx ((JsValue.str "").propD "name")],
       .elem "p" none [.jsx ((JsValue.str "").propD "email")]] :=
  ⟨fun h => JsValue.noConfusion h, rfl, rfl, by simp [loadingNode]⟩

/-- C9 amended: `user` is initialised to `null`, so on the initial
render both client components render exactly the `Loading...` paragraph
and nothing else; the name-and-email markup is rendered if and only if
`user` is truthy (for every falsy user — `null`, but also `0`, `""`,
`false` — the loading paragraph is rendered instead). -/
theorem c9_amended_initial_loading (u : JsValue) :
    Profile.initState.user = .null ∧
    ProfilePage.initState.user = .null ∧
    Profile.render Profile.initState.user = .ok loadingNode ∧
    ProfilePage.render ProfilePage.initState.user = .ok loadingNode ∧
    (u.truthy = true →
      Profile.render u = .ok (.elem "div" none
        [.elem "h1" none [.jsx (u.propD "name")], .elem "p" none [.jsx (u.propD "email")]]) ∧
      ProfilePage.render u = .ok (.elem "div" none
        [.elem "h1" none [.jsx (u.propD "name")], .elem "p" none [.jsx (u.propD "email")]])) ∧
    (u.truthy = false →
      Profile.render u = .ok loadingNode ∧ ProfilePage.render u = .ok loadingNode) :=
  ⟨rfl, rfl, rfl, rfl,
   fun h => ⟨profile_render_of_truthy h, profilePage_render_of_truthy h⟩,
   fun h => ⟨profile_render_of_falsy h, profilePage_render_of_falsy h⟩⟩

theorem c9_amended_witness :
    sampleUser.truthy = true ∧
    Profile.render sampleUser = .ok (.elem "div" none
      [.elem "h1" none [.jsx (sampleUser.propD "name")],
       .elem "p" none [.jsx (sampleUser.propD "email")]]) ∧
    (JsValue.num 0).truthy = false ∧
    ProfilePage.render (.num 0) = .ok loadingNode :=
  ⟨rfl, ((c9_amended_initial_loading sampleUser).2.2.2.2.1 rfl).1,
   rfl, ((c9_amended_initial_loading (.num 0)).2.2.2.2.2 rfl).2⟩

/-- C8: on any fetched array (of property-readable elements) the
app-router SSG and SSR pages render exactly the first
`min(length, 5)` elements — `slice(0, 5)` keeps indices `0`–`4` and
drops every index `≥ 5` — while the pages-router `Blogs` and `News`
components and the ISR `PostsPage` render one item per array element. -/
theorem c8_truncation_to_five (xs : List JsValue) (h : xs.all JsValue.proppable = true) :
    AppBlogs.renderBody (.arr xs) =
      .ok (.elem "div" none
        (.elem "h1" none [.text "SSG Blogs"] :: (xs.take 5).map appBlogsItemNode)) ∧
    ((xs.take 5).map appBlogsItemNode).length = min 5 xs.length ∧
    (∀ i : Nat, i < 5 →
      ((xs.take 5).map appBlogsItemNode)[i]? = xs[i]?.map appBlogsItemNode) ∧
    (∀ i : Nat, 5 ≤ i → ((xs.take 5).map appBlogsItemNode)[i]? = none) ∧
    AppNews.renderBody (.arr xs) =
      .ok (.elem "div" none
        (.elem "h1" none [.text "SSR News"] :: (xs.take 5).map appNewsItemNode)) ∧
    ((xs.take 5).map appNewsItemNode).length = min 5 xs.length ∧
    (∀ i : Nat, i < 5 →
      ((xs.take 5).map appNewsItemNode)[i]? = xs[i]?.map appNewsItemNode) ∧
    (∀ i : Nat, 5 ≤ i → ((xs.take 5).map appNewsItemNode)[i]? = none) ∧
    Blogs.render (.arr xs) =
      .ok (.elem "div" none
        (.elem "h1" none [.text "Blogs"] :: xs.map blogsItemNode)) ∧
    (xs.map blogsItemNode).length = xs.length ∧
    News.render (.arr xs) =
      .ok (.elem "div" none
        (.elem "h1" none [.text "News"] :: xs.map newsItemNode)) ∧
    (xs.map newsItemNode).length = xs.length ∧
    AppPosts.renderBody (.arr xs) =
      .ok (.elem "div" none
        (.elem "h1" none [.text "ISR Posts"] :: xs.map appPostsItemNode)) ∧
    (xs.map appPostsItemNode).length = xs.length := by
  have hp := (all_proppable_iff xs).1 h
  refine ⟨appBlogs_renderBody_arr hp, by simp [List.length_take], ?_, ?_,
    appNews_renderBody_arr hp, by simp [List.length_take], ?_, ?_,
    blogs_render_arr hp, by simp, news_render_arr hp, by simp,
    appPosts_renderBody_arr hp, by simp⟩
  · intro i hi
    simp [List.getElem?_map, List.getElem?_take, hi]
  · intro i hi
    apply List.getElem?_eq_none
    simp only [List.length_map, List.length_take]
    omega
  · intro i hi
    simp [List.getElem?_map, List.getElem?_take, hi]
  · intro i hi
    apply List.getElem?_eq_none
    simp only [List.length_map, List.length_take]
    omega

theorem c8_witness :
    sampleList.all JsValue.proppable = true ∧
    AppBlogs.renderBody (.arr sampleList) =
      .ok (.elem "div" none
        (.elem "h1" none [.text "SSG Blogs"] :: (sampleList.take 5).map appBlogsItemNode)) ∧
    ((sampleList.take 5).map appBlogsItemNode).length = min 5 sampleList.length :=
  ⟨rfl, (c8_truncation_to_five sampleList rfl).1,
   (c8_truncation_to_five sampleList rfl).2.1⟩

/-- C10: every list-rendering component preserves the order of the
fetched array: the rendered items are exactly the element-wise map of
the item markup over the (possibly sliced) input, so the i-th rendered
item comes from the i-th input element and the item count equals the
mapped input's length. -/
theorem c10_order_preserved (xs : List JsValue) (h : xs.all JsValue.proppable = true) :
    (Blogs.render (.arr xs) =
        .ok (.elem "div" none
          (.elem "h1" none [.text "Blogs"] :: xs.map blogsItemNode)) ∧
      (xs.map blogsItemNode).length = xs.length ∧
      ∀ i : Nat, (xs.map blogsItemNode)[i]? = xs[i]?.map blogsItemNode) ∧
    (News.render (.arr xs) =
        .ok (.elem "div" none
          (.elem "h1" none [.text "News"] :: xs.map newsItemNode)) ∧
      (xs.map newsItemNode).length = xs.length ∧
      ∀ i : Nat, (xs.map newsItemNode)[i]? = xs[i]?.map newsItemNode) ∧
    (AppPosts.renderBody (.arr xs) =
        .ok (.elem "div" none
          (.elem "h1" none [.text "ISR Posts"] :: xs.map appPostsItemNode)) ∧
      (xs.map appPostsItemNode).length = xs.length ∧
      ∀ i : Nat, (xs.map appPostsItemNode)[i]? = xs[i]?.map appPostsItemNode) ∧
    (AppBlogs.renderBody (.arr xs) =
        .ok (.elem "div" none
          (.elem "h1" none [.text "SSG Blogs"] :: (xs.take 5).map appBlogsItemNode)) ∧
      ((xs.take 5).map appBlogsItemNode).length = (xs.take 5).length ∧
      ∀ i : Nat,
        ((xs.take 5).map appBlogsItemNode)[i]? = (xs.take 5)[i]?.map appBlogsItemNode) ∧
    (AppNews.renderBody (.arr xs) =
        .ok (.elem "div" none
          (.elem "h1" none [.text "SSR News"] :: (xs.take 5).map appNewsItemNode)) ∧
      ((xs.take 5).map appNewsItemNode).length = (xs.take 5).length ∧
      ∀ i : Nat,
        ((xs.take 5).map appNewsItemNode)[i]? = (xs.take 5)[i]?.map appNewsItemNode) := by
  have hp := (all_proppable_iff xs).1 h
  exact ⟨⟨blogs_render_arr hp, by simp, fun i => by simp [List.getElem?_map]⟩,
    ⟨news_render_arr hp, by simp, fun i => by simp [List.getElem?_map]⟩,
    ⟨appPosts_renderBody_arr hp, by simp, fun i => by simp [List.getElem?_map]⟩,
    ⟨appBlogs_renderBody_arr hp, by simp, fun i => by
      rcases Nat.lt_or_ge i 5 with hi | hi
      · simp [List.getElem?_take, List.getElem?_map, hi]
      · simp [List.getElem?_take, List.getElem?_map, Nat.not_lt.2 hi]⟩,
    ⟨appNews_renderBody_arr hp, by simp, fun i => by
      rcases Nat.lt_or_ge i 5 with hi | hi
      · simp [List.getElem?_take, List.getElem?_map, hi]
      · simp [List.getElem?_take, List.getElem?_map, Nat.not_lt.2 hi]⟩⟩

theorem c10_witness :
    sampleList.all JsValue.proppable = true ∧
    Blogs.render (.arr sampleList) =
      .ok (.elem "div" none
        (.elem "h1" none [.text "Blogs"] :: sampleList.map blogsItemNode)) ∧
    (sampleList.map blogsItemNode).length = sampleList.length :=
  ⟨rfl, (c10_order_preserved sampleList rfl).1.1,
   (c10_order_preserved sampleList rfl).1.2.1⟩
